import Mathlib

/-!
Formal model of the GTPlanner dynamic-weight configuration cell
(`src/include/gtplanner/costmap2d.h`, `src/src/costmap2d.cpp`,
`src/test/test_dynamic_weights.cpp`).

The C++ code stores a `std::vector<double>` of weights inside a class
`Costmap2D`, protected by a `std::mutex`.  `updateWeights(w)` takes the lock
and assigns the whole vector; an optional dynamic-reconfigure callback
(compiled only under `GTPLANNER_HAS_DYNAMIC_RECONFIGURE`) forwards the two
config fields to `updateWeights`.

Modelling choices:
* The element type of the vector is an opaque type `α`: the code only ever
  copies doubles (vector assignment, brace-list construction), never computes
  with them, so every property below is parametric in the element type and
  Lean equality on `α` corresponds to bit-identity of the copied doubles.
  Witness instances use `ℚ`, where the literals `2.0` and `1.0` of the tests
  are exact.
* A mutex-guarded assignment is a single whole-state step of a sequential
  transition function; sequences of calls are folds of that step.
* The header's public section is also recorded as data (the list of public
  member names), because one claim is about which operations the class
  exposes.
-/

universe u

/-- A stored weight sequence: the `std::vector<double>` of the source,
modelled as a list over an opaque element type `α` (doubles are only copied,
never computed with). -/
abbrev WeightSet (α : Type u) : Type u := List α

/-- The `Costmap2D` class compiled without `GTPLANNER_HAS_DYNAMIC_RECONFIGURE`:
its only data member is `std::vector<double> current_weights_` (the
`std::mutex mtx_` carries no data; locking is modelled by the whole-state
atomic step `updateWeights`). -/
structure Costmap2D (α : Type u) : Type u where
  current_weights_ : WeightSet α
deriving DecidableEq

/-- The default constructor `Costmap2D::Costmap2D()`
(`src/src/costmap2d.cpp` lines 3–7): without dynamic reconfigure its body is
empty, so `current_weights_` is default-initialized to the empty vector. -/
def Costmap2D.init {α : Type u} : Costmap2D α := ⟨[]⟩

/-- `Costmap2D::updateWeights` (`src/src/costmap2d.cpp` lines 9–12): takes
`std::lock_guard<std::mutex> lock(mtx_)` and assigns
`current_weights_ = w;` — the whole vector is replaced verbatim, with no
validation, clamping or defaulting. -/
def Costmap2D.updateWeights {α : Type u} (c : Costmap2D α) (w : WeightSet α) :
    Costmap2D α :=
  { c with current_weights_ := w }

/-- Modelled from the spec: `read()` returns a copy of the snapshot current at
call time.  No `read()` member exists under `src/`; the repository's only
consumer, `test_dynamic_weights.cpp`, observes the same `current_weights_`
field directly (`cm.current_weights_[0]`), which is exactly this accessor. -/
def Costmap2D.read {α : Type u} (c : Costmap2D α) : WeightSet α :=
  c.current_weights_

/-- The public member functions declared in the header
(`src/include/gtplanner/costmap2d.h` lines 11–14): the constructor and
`updateWeights`, and nothing else. -/
def Costmap2D.publicInterface : List String :=
  ["Costmap2D", "updateWeights"]

/-- The `dynamic_reconfigure::Server` member, modelled by whether its
`setCallback` has been invoked (the only interaction the source has with
it). -/
structure ReconfigServer : Type where
  callback_set : Bool
deriving DecidableEq

/-- The `gtplanner::CostWeightsConfig` record delivered to the
reconfiguration callback: one floating-point field per configurable
weight. -/
structure CostWeightsConfig (α : Type u) : Type u where
  obstacle_weight : α
  inflation_weight : α

/-- The `Costmap2D` class compiled with `GTPLANNER_HAS_DYNAMIC_RECONFIGURE`:
the same `current_weights_` member plus the `reconfig_srv_` server. -/
structure Costmap2DDR (α : Type u) : Type u where
  reconfig_srv_ : ReconfigServer
  current_weights_ : WeightSet α

/-- The constructor in the dynamic-reconfigure build: it calls
`reconfig_srv_.setCallback(...)` and leaves `current_weights_`
default-initialized (empty). -/
def Costmap2DDR.init {α : Type u} : Costmap2DDR α := ⟨⟨true⟩, []⟩

/-- `updateWeights` in the dynamic-reconfigure build: textually the same
function body as in the plain build. -/
def Costmap2DDR.updateWeights {α : Type u} (c : Costmap2DDR α)
    (w : WeightSet α) : Costmap2DDR α :=
  { c with current_weights_ := w }

/-- `Costmap2D::reconfigCB` (`src/src/costmap2d.cpp` lines 14–18): builds the
two-element brace list `{cfg.obstacle_weight, cfg.inflation_weight}` and
passes it to `updateWeights`; the `level` argument is ignored. -/
def Costmap2DDR.reconfigCB {α : Type u} (c : Costmap2DDR α)
    (cfg : CostWeightsConfig α) (_level : Nat) : Costmap2DDR α :=
  c.updateWeights [cfg.obstacle_weight, cfg.inflation_weight]

/-- A sequence of `updateWeights` calls on the plain build. -/
def Costmap2D.runUpdates {α : Type u} (c : Costmap2D α)
    (ws : List (WeightSet α)) : Costmap2D α :=
  ws.foldl Costmap2D.updateWeights c

/-- A sequence of `updateWeights` calls on the dynamic-reconfigure build. -/
def Costmap2DDR.runUpdates {α : Type u} (c : Costmap2DDR α)
    (ws : List (WeightSet α)) : Costmap2DDR α :=
  ws.foldl Costmap2DDR.updateWeights c

/-- All states the cell passes through while executing a sequence of
`updateWeights` calls, the starting state included. -/
def Costmap2D.traceStates {α : Type u} (c : Costmap2D α)
    (ws : List (WeightSet α)) : List (Costmap2D α) :=
  ws.scanl Costmap2D.updateWeights c

/-- Helper for the atomicity invariant: along any run, every reachable state
reads as the start state's value or as one of the written values. -/
theorem Costmap2D.mem_traceStates_read {α : Type u} :
    ∀ (ws : List (WeightSet α)) (c s : Costmap2D α),
      s ∈ Costmap2D.traceStates c ws → s.read = c.read ∨ s.read ∈ ws := by
  intro ws
  induction ws with
  | nil =>
      intro c s hs
      simp [Costmap2D.traceStates, List.scanl] at hs
      subst hs
      exact Or.inl rfl
  | cons a l ih =>
      intro c s hs
      simp only [Costmap2D.traceStates, List.scanl, List.mem_cons] at hs
      rcases hs with h | h
      · subst h
        exact Or.inl rfl
      · rcases ih (c.updateWeights a) s h with h1 | h1
        · right
          rw [h1]
          exact List.mem_cons_self a l
        · exact Or.inr (List.mem_cons_of_mem a h1)

/-- Claim C1: along every sequence of operations starting from a freshly
constructed cell, every readable value (the stored weight sequence) equals
some `WeightSet` passed whole to a single `updateWeights` call or the initial
default — never a mixture of fields from two different writes. -/
theorem Costmap2D.readable_is_default_or_written {α : Type u}
    (ws : List (WeightSet α)) (s : Costmap2D α)
    (hs : s ∈ Costmap2D.traceStates Costmap2D.init ws) :
    s.read = [] ∨ s.read ∈ ws :=
  Costmap2D.mem_traceStates_read ws Costmap2D.init s hs

/-- Witness for C1: the state reached after writing `[2, 1]` is in the trace,
and its readable value is the written set. -/
theorem Costmap2D.readable_is_default_or_written_witness :
    (⟨[2, 1]⟩ : Costmap2D ℚ).read = [] ∨
      (⟨[2, 1]⟩ : Costmap2D ℚ).read ∈ [[(2 : ℚ), 1]] :=
  Costmap2D.readable_is_default_or_written [[(2 : ℚ), 1]] ⟨[2, 1]⟩ (by decide)

/-- Claim C2: after `updateWeights(w)` completes, the stored snapshot equals
`w` exactly and every subsequent read observes `w` (reads do not change the
state, so until the next write each `read` returns the identical value; over
the opaque element type, equality is bit-identity of the copied doubles). -/
theorem Costmap2D.updateWeights_then_read {α : Type u} (c : Costmap2D α)
    (w : WeightSet α) :
    (c.updateWeights w).current_weights_ = w ∧ (c.updateWeights w).read = w :=
  ⟨rfl, rfl⟩

/-- Counterexample to claim C3: the first read of a freshly constructed cell
is the empty vector, not the claimed default `{1.0, 1.0}` —
`current_weights_` is default-initialized and the constructor body never
assigns it. -/
theorem Costmap2D.init_read_ne_one_one :
    ¬ ((Costmap2D.init : Costmap2D ℚ).read = [1, 1]) := by
  decide

/-- Claim C3 (amended): a freshly constructed cell, before any
`updateWeights` call, holds the default-constructed empty weight sequence,
and its first read returns that empty sequence. -/
theorem Costmap2D.init_read_empty {α : Type u} :
    (Costmap2D.init : Costmap2D α).current_weights_ = [] ∧
      (Costmap2D.init : Costmap2D α).read = [] :=
  ⟨rfl, rfl⟩

/-- Counterexample to claim C4: the class exposes no `read()` operation — the
header's public section declares only the constructor and `updateWeights`. -/
theorem Costmap2D.read_not_public : "read" ∉ Costmap2D.publicInterface := by
  decide

/-- Claim C4 (amended): the cell exposes no consumer-facing `read()`; its
public interface is exactly the constructor and `updateWeights`, and the
snapshot lives in the field `current_weights_`, which the repository's test
accesses directly, observing the snapshot current at access time. -/
theorem Costmap2D.interface_and_field_access {α : Type u} :
    "Costmap2D" ∈ Costmap2D.publicInterface ∧
      "updateWeights" ∈ Costmap2D.publicInterface ∧
      "read" ∉ Costmap2D.publicInterface ∧
      ∀ c : Costmap2D α, c.read = c.current_weights_ :=
  ⟨by decide, by decide, by decide, fun _ => rfl⟩

/-- Claim C5: for every delivered configuration record, `reconfigCB`
constructs exactly the two-element sequence `obstacle_weight` then
`inflation_weight`, in that order, installs it via `updateWeights`, and has
no other effect on the cell (the server member is untouched and the `level`
argument is ignored). -/
theorem Costmap2DDR.reconfigCB_installs_two_fields {α : Type u}
    (c : Costmap2DDR α) (cfg : CostWeightsConfig α) (level : Nat) :
    c.reconfigCB cfg level =
        c.updateWeights [cfg.obstacle_weight, cfg.inflation_weight] ∧
      (c.reconfigCB cfg level).current_weights_ =
        [cfg.obstacle_weight, cfg.inflation_weight] ∧
      (c.reconfigCB cfg level).reconfig_srv_ = c.reconfig_srv_ :=
  ⟨rfl, rfl, rfl⟩

/-- Claim C6: last-write-wins — after `updateWeights A` then
`updateWeights B` with no further writes, every read returns `B`; and when
`A ≠ B` it never returns `A` (the second write fully overwrites the previous
snapshot regardless of its contents). -/
theorem Costmap2D.last_write_wins {α : Type u} (c : Costmap2D α)
    (A B : WeightSet α) :
    ((c.updateWeights A).updateWeights B).read = B ∧
      (A ≠ B → ((c.updateWeights A).updateWeights B).read ≠ A) := by
  refine ⟨rfl, ?_⟩
  intro h hA
  exact h (by simpa [Costmap2D.updateWeights, Costmap2D.read] using hA.symm)

/-- Witness for C6 at `A = [1]`, `B = [2]`. -/
theorem Costmap2D.last_write_wins_witness :
    (((Costmap2D.init : Costmap2D ℚ).updateWeights [1]).updateWeights
          [2]).read = [2] ∧
      (((Costmap2D.init : Costmap2D ℚ).updateWeights [1]).updateWeights
          [2]).read ≠ [1] :=
  ⟨(Costmap2D.last_write_wins Costmap2D.init [1] [2]).1,
   (Costmap2D.last_write_wins Costmap2D.init [1] [2]).2 (by decide)⟩

/-- Helper for C7: runs from any pair of states with equal weight fields keep
the weight fields equal. -/
theorem Costmap2DDR.runUpdates_agrees {α : Type u} :
    ∀ (ws : List (WeightSet α)) (d : Costmap2DDR α) (c : Costmap2D α),
      d.current_weights_ = c.current_weights_ →
      (d.runUpdates ws).current_weights_ = (c.runUpdates ws).current_weights_ := by
  intro ws
  induction ws with
  | nil => intro d c h; exact h
  | cons a l ih =>
      intro d c h
      exact ih (d.updateWeights a) (c.updateWeights a) rfl

/-- Claim C7: the core cell behaves identically whether or not
dynamic-reconfigure support is compiled in — for every sequence of
`updateWeights` calls, both build variants hold equal weight states. -/
theorem Costmap2DDR.reconfigure_variant_agrees {α : Type u}
    (ws : List (WeightSet α)) :
    ((Costmap2DDR.init : Costmap2DDR α).runUpdates ws).current_weights_ =
      ((Costmap2D.init : Costmap2D α).runUpdates ws).current_weights_ :=
  Costmap2DDR.runUpdates_agrees ws Costmap2DDR.init Costmap2D.init rfl

/-- Claim C8: `updateWeights` and `read` are total — for every cell state and
every argument they complete with a fully determined result, `updateWeights`
yields exactly the cell holding the new sequence (its only effect; it returns
no value in the source), and `read` yields the stored field. The source has
no error path at all: the embedding needs no `Option`/`Except`. -/
theorem Costmap2D.operations_total {α : Type u} (c : Costmap2D α)
    (w : WeightSet α) :
    c.updateWeights w = Costmap2D.mk w ∧ c.read = c.current_weights_ :=
  ⟨rfl, rfl⟩

/-- Claim C10: `updateWeights` performs no validation — for every vector of
any length (empty, one element, more than two) and any values, the argument
is stored verbatim as the new current weight sequence, with no rejection,
clamping or defaulting. -/
theorem Costmap2D.updateWeights_no_validation {α : Type u} (c : Costmap2D α)
    (w : WeightSet α) :
    (c.updateWeights w).current_weights_ = w :=
  rfl
